import Mathlib

/-!
Verification development for the GrowPodEmpire cultivation platform.

Shallow embedding of the core components:
- the tamper-evident hash chain (`src/growpodempire/blockchain/cultivation_chain.py`),
- the growth tracker (`src/growpodempire/services/growth_tracker.py`),
- the environmental monitor (`src/growpodempire/services/environmental_monitor.py`),
- the coordinating application facade (`src/growpodempire/app.py`).

Modelling conventions:
- Python floats are embedded as exact rationals (`ℚ`).
- Timestamps are explicit parameters threaded through the operations
  (`datetime.now()` becomes an argument): `Nat` ticks for the chain, `ℚ` days
  for the growth tracker, `ℚ` hours for the environmental monitor.
- SHA-256 is idealised as the canonical serialisation string it is applied to:
  `Block.calculate_hash` in the source builds a deterministic JSON string of
  the block fields (sorted keys) and hashes it; the embedding keeps the
  deterministic string itself as the digest.  All theorems about tampering
  carry the "recomputed hash differs from the stored hash" condition
  explicitly, so no injectivity of the idealised hash is silently assumed.
- Python exceptions and error dictionaries become `Except` values; a raise
  that happens before any mutation is modelled by returning the input state
  unchanged next to the error.
-/

namespace Blockchain

/-- A block of the cultivation chain, mirroring `Block.__init__`:
`block_number`, `timestamp` (stamped at construction), opaque `data` payload
(serialised), `previous_hash`, and the stored `hash` computed once at
construction. -/
structure Block where
  block_number : Nat
  timestamp : Nat
  data : String
  previous_hash : String
  hash : String
deriving Repr, DecidableEq

/-- Deterministic digest of the canonical serialisation of all block fields
except the stored hash itself (`Block.calculate_hash`: the source
JSON-serialises the fields with sorted keys and applies SHA-256; the digest
is idealised as the canonical string). -/
def calculate_hash (block_number : Nat) (timestamp : Nat)
    (data : String) (previous_hash : String) : String :=
  "sha256[block_number=" ++ toString block_number ++
    ";timestamp=" ++ toString timestamp ++
    ";data=" ++ data ++
    ";previous_hash=" ++ previous_hash ++ "]"

/-- Construct a block the way `Block.__init__` does: store the fields and set
`hash := calculate_hash` of them. -/
def mkBlock (block_number : Nat) (timestamp : Nat)
    (data : String) (previous_hash : String) : Block :=
  { block_number := block_number, timestamp := timestamp, data := data,
    previous_hash := previous_hash,
    hash := calculate_hash block_number timestamp data previous_hash }

/-- A default block, standing in for Python's crash on indexing an empty
chain; reachable chains are never empty. -/
def dummyBlock : Block := mkBlock 0 0 "" "0"

/-- The genesis block (`create_genesis_block`): `Block(0, genesis payload, "0")`. -/
def create_genesis_block (t0 : Nat) : Block :=
  mkBlock 0 t0 "type=genesis;data=GrowPodEmpire Genesis Block" "0"

/-- A fresh chain (`CultivationBlockchain.__init__`): the chain starts as
`[genesis]`. -/
def freshChain (t0 : Nat) : List Block := [create_genesis_block t0]

/-- The most recent block (`get_latest_block`): `chain[-1]`. -/
def get_latest_block (c : List Block) : Block := c.getLastD dummyBlock

/-- Append a record (`add_block(data)`): build a block with
`block_number = len(chain)` and `previous_hash = latest().hash`, then append
it.  The embedding returns the new chain; the appended block is its last
element. -/
def add_block (t : Nat) (data : String) (c : List Block) : List Block :=
  c ++ [mkBlock c.length t data (get_latest_block c).hash]

/-- Does a block's stored hash match a fresh recomputation from its fields
(the first check of the `verify_chain` loop body)? -/
def blockHashOk (b : Block) : Bool :=
  b.hash == calculate_hash b.block_number b.timestamp b.data b.previous_hash

/-- The `verify_chain` loop from index 1 on: each block's stored hash must
recompute, and its `previous_hash` must equal the predecessor's stored hash. -/
def verifyFrom (prev : Block) : List Block → Bool
  | [] => true
  | b :: rest =>
    blockHashOk b && (b.previous_hash == prev.hash) && verifyFrom b rest

/-- Chain verification (`verify_chain`): run the checks for `i` in
`1 .. len-1`; the genesis block's own hash is never rechecked (the loop
starts at 1). -/
def verify_chain (c : List Block) : Bool :=
  match c with
  | [] => true
  | b0 :: rest => verifyFrom b0 rest

/-- Build a chain by a sequence of `add_block` calls on a fresh chain; each
append carries its own timestamp. -/
def buildChain (t0 : Nat) (appends : List (Nat × String)) : List Block :=
  appends.foldl (fun c p => add_block p.1 p.2 c) (freshChain t0)

/-- In-place mutation of a stored block's payload (the tampering scenario):
replace `data`, leaving the stored hash untouched. -/
def setData (b : Block) (d : String) : Block :=
  { b with data := d }

/-- Tamper with the chain: overwrite the payload of the block at index `i`. -/
def mutateData (c : List Block) (i : Nat) (d : String) : List Block :=
  match c.get? i with
  | some b => c.set i (setData b d)
  | none => c

end Blockchain

namespace Growth

/-- The `GrowthStage` enumeration, in declaration order (the order of
`list(GrowthStage)`). -/
inductive GrowthStage
  | seed
  | germination
  | seedling
  | vegetative
  | flowering
  | harvest
deriving DecidableEq, BEq, Repr

/-- Expected daily growth in cm/day (`stage_growth_rates.get(stage, 1.0)`). -/
def stage_growth_rates : GrowthStage → ℚ
  | .seedling => 1/2
  | .vegetative => 2
  | .flowering => 3/10
  | _ => 1

/-- Expected stage duration in days (`stage_durations.get(stage, 0)`). -/
def stage_durations : GrowthStage → Nat
  | .seed => 3
  | .germination => 7
  | .seedling => 14
  | .vegetative => 30
  | .flowering => 60
  | .harvest => 0

/-- The ordered stage list, `list(GrowthStage)`. -/
def stageList : List GrowthStage :=
  [.seed, .germination, .seedling, .vegetative, .flowering, .harvest]

/-- The suffix `list(GrowthStage)[current_stage_index:]` of the stage list
starting at the plant's current stage. -/
def stagesFrom (s : GrowthStage) : List GrowthStage :=
  stageList.dropWhile (fun x => x != s)

/-- The remaining-days loop of `_predict_harvest_date`: sum the expected
durations from the current stage on, stopping at (excluding) `harvest`. -/
def remainingBase (s : GrowthStage) : Nat :=
  ((stagesFrom s).takeWhile (fun x => x != GrowthStage.harvest)).foldl
    (fun acc st => acc + stage_durations st) 0

/-- A growth sample (`GrowthMetrics`); timestamps are ℚ day numbers and the
predicted harvest date is the ℚ day number `now + remaining`. -/
structure GrowthMetrics where
  plant_id : String
  timestamp : ℚ
  height : ℚ
  leaf_count : Option Nat
  health_score : ℚ
  growth_rate : Option ℚ
  predicted_harvest_date : ℚ
deriving Repr, DecidableEq

/-- The plant fields the tracker consumes. -/
structure Plant where
  id : String
  health_score : ℚ
  growth_stage : GrowthStage
deriving Repr, DecidableEq

/-- The growth-rate step of `track_growth`: with a prior sample and a
positive elapsed time (in days), the height difference per day; otherwise
`None`. -/
def computeGrowthRate (history : List GrowthMetrics) (now height : ℚ) : Option ℚ :=
  match history.getLast? with
  | none => none
  | some last =>
    let time_diff := now - last.timestamp
    if 0 < time_diff then some ((height - last.height) / time_diff) else none

/-- The health-score step of `track_growth`: a defined rate below half the
expected rate costs 10 points floored at 50; above one-and-a-half times the
expected rate gains 5 points capped at 100; otherwise unchanged. -/
def adjustHealth (stage : GrowthStage) (health_score : ℚ) (growth_rate : Option ℚ) : ℚ :=
  match growth_rate with
  | none => health_score
  | some r =>
    let expected_rate := stage_growth_rates stage
    if r < expected_rate * (1/2) then max 50 (health_score - 10)
    else if r > expected_rate * (3/2) then min 100 (health_score + 5)
    else health_score

/-- Arithmetic mean of a list (`np.mean`); `none` models the NaN produced on
an empty list, which fails every comparison. -/
def meanList (l : List ℚ) : Option ℚ :=
  if l = [] then none
  else some (l.foldl (fun a b => a + b) 0 / (l.length : ℚ))

/-- The comprehension in `_predict_harvest_date`:
`[m.growth_rate for m in recent_metrics if m.growth_rate]`.  Python
truthiness keeps a rate only when it is defined AND nonzero (`None` and
`0.0` are both falsy). -/
def truthyRates (l : List GrowthMetrics) : List ℚ :=
  l.filterMap (fun m =>
    match m.growth_rate with
    | none => none
    | some r => if r = 0 then none else some r)

/-- The defined growth rates of a list of samples: the filter as claim C6 and
the spec word it, ignoring exactly the undefined rates. -/
def definedRates (l : List GrowthMetrics) : List ℚ :=
  l.filterMap (fun m => m.growth_rate)

/-- The slice `history[-5:]`. -/
def lastFive (history : List GrowthMetrics) : List GrowthMetrics :=
  history.drop (history.length - 5)

/-- Python `int()` applied to a float: truncation toward zero. -/
def intTrunc (q : ℚ) : Int :=
  if q < 0 then -(Int.floor (-q)) else Int.floor q

/-- Harvest-date prediction (`_predict_harvest_date`): sum the expected
durations of the stages from the current one up to (excluding) harvest; with
more than 3 prior samples, average the truthy rates of the last 5 samples
and, when that average is positive, rescale the estimate by
`expected_rate / avg_growth_rate` (the source also computes
`days_since_planted`, which it never uses; it is omitted). -/
def predict_harvest_date (stage : GrowthStage) (history : List GrowthMetrics)
    (now : ℚ) : ℚ :=
  let remaining : Int :=
    if 3 < history.length then
      match meanList (truthyRates (lastFive history)) with
      | some avg =>
        if 0 < avg then
          intTrunc ((remainingBase stage : ℚ) * (stage_growth_rates stage / avg))
        else (remainingBase stage : Int)
      | none => (remainingBase stage : Int)
    else (remainingBase stage : Int)
  now + (remaining : ℚ)

/-- Harvest-date prediction as claim C6 describes it: identical to
`predict_harvest_date` except that the recent-rate mean ignores exactly the
samples whose growth rate is undefined (kept separate for comparison with
the source behaviour). -/
def predict_harvest_date_claimC6 (stage : GrowthStage)
    (history : List GrowthMetrics) (now : ℚ) : ℚ :=
  let remaining : Int :=
    if 3 < history.length then
      match meanList (definedRates (lastFive history)) with
      | some avg =>
        if 0 < avg then
          intTrunc ((remainingBase stage : ℚ) * (stage_growth_rates stage / avg))
        else (remainingBase stage : Int)
      | none => (remainingBase stage : Int)
    else (remainingBase stage : Int)
  now + (remaining : ℚ)

/-- One growth measurement (`GrowthTracker.track_growth`), on the entity's
prior history: compute the rate, adjust the health score from the plant's
current score, predict the harvest date, and assemble the sample (the caller
appends it to the history). -/
def track_growth (history : List GrowthMetrics) (plant : Plant)
    (now height : ℚ) (leaf_count : Option Nat) : GrowthMetrics :=
  let growth_rate := computeGrowthRate history now height
  let health_score := adjustHealth plant.growth_stage plant.health_score growth_rate
  let predicted := predict_harvest_date plant.growth_stage history now
  { plant_id := plant.id, timestamp := now, height := height,
    leaf_count := leaf_count, health_score := health_score,
    growth_rate := growth_rate, predicted_harvest_date := predicted }

/-- The per-plant state evolved by repeated measurements: the plant's stored
health score and the tracker's history (after `record_growth`, the app
writes `metrics.health_score` back onto the plant). -/
structure TrackState where
  score : ℚ
  history : List GrowthMetrics
deriving Repr

/-- One repeated-measurement step as driven by `GrowPodEmpire.record_growth`:
run `track_growth`, append the metrics, store the new health score. -/
def measureStep (id : String) (stage : GrowthStage) (st : TrackState)
    (obs : ℚ × ℚ) : TrackState :=
  let m := track_growth st.history
    { id := id, health_score := st.score, growth_stage := stage } obs.1 obs.2 none
  { score := m.health_score, history := st.history ++ [m] }

/-- Repeated measurements: fold `measureStep` over a list of
(time, height) observations. -/
def runMeasurements (id : String) (stage : GrowthStage) (st : TrackState)
    (obs : List (ℚ × ℚ)) : TrackState :=
  obs.foldl (measureStep id stage) st

/-- A plant snapshot with the given current health score and stage. -/
def plantP (score : ℚ) (stage : GrowthStage) : Plant :=
  { id := "p1", health_score := score, growth_stage := stage }

/-- A sample with a given recorded growth rate (the prediction reads only the
rates and the length of the history). -/
def sampleWithRate (r : ℚ) : GrowthMetrics :=
  { plant_id := "p1", timestamp := 0, height := 10, leaf_count := none,
    health_score := 100, growth_rate := some r, predicted_harvest_date := 0 }

/-- A concrete four-sample history whose recorded growth rates are
0, 2, 2, 2 — all of them defined, one of them zero. -/
def c6hist : List GrowthMetrics :=
  [sampleWithRate 0, sampleWithRate 2, sampleWithRate 2, sampleWithRate 2]

end Growth

namespace EnvMonitor

/-- An environmental sample (`EnvironmentalCondition`); timestamps are ℚ hour
numbers. -/
structure EnvironmentalCondition where
  timestamp : ℚ
  temperature : ℚ
  humidity : ℚ
  co2_level : ℚ
  light_intensity : ℚ
  ph_level : ℚ
deriving Repr, DecidableEq

/-- The `optimal_ranges` table, one `(min, max)` pair per parameter. -/
def temperatureRange : ℚ × ℚ := (20, 28)

def humidityRange : ℚ × ℚ := (40, 60)

def co2Range : ℚ × ℚ := (800, 1500)

def lightRange : ℚ × ℚ := (400, 700)

def phRange : ℚ × ℚ := (6, 7)

/-- The kinds of alert `_generate_alerts` can emit (the source formats each
as a message string carrying the offending value; the embedding keeps the
kind). -/
inductive Alert
  | temperatureLow
  | temperatureHigh
  | humidityLow
  | humidityHigh
  | phOutOfRange
deriving DecidableEq, Repr

/-- Alert generation (`_generate_alerts`): temperature and humidity alert
outside a 10% band around their ranges, pH alerts strictly outside its exact
range; CO2 and light are never examined. -/
def generate_alerts (c : EnvironmentalCondition) : List Alert :=
  let tempAlerts : List Alert :=
    if c.temperature < temperatureRange.1 * (9/10) then [.temperatureLow]
    else if c.temperature > temperatureRange.2 * (11/10) then [.temperatureHigh]
    else []
  let humAlerts : List Alert :=
    if c.humidity < humidityRange.1 * (9/10) then [.humidityLow]
    else if c.humidity > humidityRange.2 * (11/10) then [.humidityHigh]
    else []
  let phAlerts : List Alert :=
    if c.ph_level < phRange.1 ∨ c.ph_level > phRange.2 then [.phOutOfRange]
    else []
  tempAlerts ++ humAlerts ++ phAlerts

/-- Classification outcome of `_analyze_conditions` for one parameter. -/
inductive ParamStatus
  | optimal
  | acceptable
  | critical
deriving DecidableEq, Repr

/-- The band logic of `_analyze_conditions` for one parameter. -/
def classifyParam (range : ℚ × ℚ) (v : ℚ) : ParamStatus :=
  if range.1 ≤ v ∧ v ≤ range.2 then .optimal
  else if range.1 * (9/10) ≤ v ∧ v ≤ range.2 * (11/10) then .acceptable
  else .critical

/-- Classify the five configured parameters (`_analyze_conditions`). -/
def analyze_conditions (c : EnvironmentalCondition) : List ParamStatus :=
  [classifyParam temperatureRange c.temperature,
   classifyParam humidityRange c.humidity,
   classifyParam co2Range c.co2_level,
   classifyParam lightRange c.light_intensity,
   classifyParam phRange c.ph_level]

/-- Overall status of the latest sample (`_get_overall_status` on a present
sample). -/
def overall_status (c : EnvironmentalCondition) : String :=
  let a := analyze_conditions c
  if 0 < a.countP (fun s => s == ParamStatus.critical) then "critical"
  else if 2 < a.countP (fun s => s == ParamStatus.acceptable) then "acceptable"
  else "optimal"

/-- Sum of a list of rationals. -/
def listSum (l : List ℚ) : ℚ := l.foldl (fun a b => a + b) 0

/-- Arithmetic mean (`np.mean`; only applied to nonempty lists here). -/
def listMean (l : List ℚ) : ℚ := listSum l / (l.length : ℚ)

/-- Minimum of a list (`np.min`; only applied to nonempty lists here). -/
def listMin : List ℚ → ℚ
  | [] => 0
  | x :: xs => xs.foldl min x

/-- Maximum of a list (`np.max`; only applied to nonempty lists here). -/
def listMax : List ℚ → ℚ
  | [] => 0
  | x :: xs => xs.foldl max x

/-- Population variance.  The source reports `np.std`, the population
standard deviation, which is the square root of this value; the square root
of a rational is irrational in general, so the embedding carries the
variance, which determines the standard deviation uniquely. -/
def popVariance (l : List ℚ) : ℚ :=
  listMean (l.map (fun x => (x - listMean l)^2))

/-- Statistics reported for temperature and humidity. -/
structure ParamStats where
  average : ℚ
  min : ℚ
  max : ℚ
  variance : ℚ
deriving Repr, DecidableEq

/-- Statistics reported for CO2 (no standard deviation in the source). -/
structure CO2Stats where
  average : ℚ
  min : ℚ
  max : ℚ
deriving Repr, DecidableEq

/-- The analytics record built by `get_environment_analytics`. -/
structure EnvAnalytics where
  period_hours : ℚ
  measurements : Nat
  temperature : ParamStats
  humidity : ParamStats
  co2 : CO2Stats
  overall : String
deriving Repr, DecidableEq

/-- The fallback set used when no sample falls in the window:
`history[-10:] if len(history) > 10 else history`. -/
def fallbackSet (history : List EnvironmentalCondition) : List EnvironmentalCondition :=
  if 10 < history.length then history.drop (history.length - 10) else history

/-- Windowed statistics (`get_environment_analytics(pod_id, hours)`) over the
pod's recorded history: report the "no data" error on an empty history;
otherwise select the samples with `timestamp >= now - hours`, fall back to
the last (at most) 10 samples when that selection is empty, and compute the
statistics over the selected set. -/
def get_environment_analytics (history : List EnvironmentalCondition)
    (now : ℚ) (hours : ℚ) : Except String EnvAnalytics :=
  if history = [] then Except.error "No environmental data available"
  else
    let cutoff := now - hours
    let filtered := history.filter (fun c => cutoff ≤ c.timestamp)
    let recent := if filtered = [] then fallbackSet history else filtered
    let temps := recent.map (fun c => c.temperature)
    let hums := recent.map (fun c => c.humidity)
    let co2s := recent.map (fun c => c.co2_level)
    Except.ok
      { period_hours := hours
        measurements := recent.length
        temperature := { average := listMean temps, min := listMin temps,
                         max := listMax temps, variance := popVariance temps }
        humidity := { average := listMean hums, min := listMin hums,
                      max := listMax hums, variance := popVariance hums }
        co2 := { average := listMean co2s, min := listMin co2s, max := listMax co2s }
        overall := overall_status (recent.getLastD
          { timestamp := 0, temperature := 0, humidity := 0, co2_level := 0,
            light_intensity := 0, ph_level := 0 }) }

/-- A concrete in-range sample observed at hour `t`. -/
def envSample (t : ℚ) : EnvironmentalCondition :=
  { timestamp := t, temperature := 25, humidity := 50, co2_level := 1000,
    light_intensity := 500, ph_level := 13/2 }

end EnvMonitor

namespace App

/-- The plant record created by `add_plant` (fields the claims need). -/
structure AppPlant where
  id : String
  strain : String
  pod_id : String
  planted_date : Nat
deriving Repr, DecidableEq

/-- A growing pod (`GrowPod`). -/
structure GrowPod where
  id : String
  name : String
  capacity : Nat
  current_plants : List String
deriving Repr, DecidableEq

/-- Keyed lookup in an association list (Python dict read). -/
def lookupKey {α : Type} : List (String × α) → String → Option α
  | [], _ => none
  | (k2, v) :: rest, k => if k2 = k then some v else lookupKey rest k

/-- Keyed write in an association list (Python dict assignment): replace the
existing binding or append a new one. -/
def updateKey {α : Type} : List (String × α) → String → α → List (String × α)
  | [], k, v => [(k, v)]
  | (k2, v2) :: rest, k, v =>
    if k2 = k then (k, v) :: rest else (k2, v2) :: updateKey rest k v

/-- The application state held by `GrowPodEmpire`: the plant and pod
registries and the cultivation chain. -/
structure AppState where
  plants : List (String × AppPlant)
  pods : List (String × GrowPod)
  chain : List Blockchain.Block
deriving Repr, DecidableEq

/-- `GrowPodEmpire.__init__`: empty registries, fresh chain. -/
def initApp (t0 : Nat) : AppState :=
  { plants := [], pods := [], chain := Blockchain.freshChain t0 }

/-- Create a pod (`create_pod`). -/
def create_pod (st : AppState) (pod_id name : String) (capacity : Nat) : AppState :=
  let pod : GrowPod :=
    { id := pod_id, name := name, capacity := capacity, current_plants := [] }
  { st with pods := updateKey st.pods pod_id pod }

/-- The payload `record_plant_data` serialises for a "planted" event. -/
def plantedPayload (plant_id strain pod_id : String) : String :=
  "type=plant_data;id=" ++ plant_id ++ ";action=planted;strain=" ++ strain ++
    ";pod_id=" ++ pod_id

/-- Add a plant to a pod (`add_plant`): unknown pod and full pod raise a
`ValueError` before any mutation (modelled by returning the input state
unchanged next to the error); on success, register the plant, append it to
the pod, and record the planted event on the chain. -/
def add_plant (st : AppState) (t : Nat) (plant_id strain pod_id : String) :
    AppState × Except String AppPlant :=
  match lookupKey st.pods pod_id with
  | none => (st, Except.error ("Pod " ++ pod_id ++ " not found"))
  | some pod =>
    if pod.capacity ≤ pod.current_plants.length then
      (st, Except.error ("Pod " ++ pod_id ++ " is at full capacity"))
    else
      let plant : AppPlant :=
        { id := plant_id, strain := strain, pod_id := pod_id, planted_date := t }
      ({ plants := updateKey st.plants plant_id plant,
         pods := updateKey st.pods pod_id
           { pod with current_plants := pod.current_plants ++ [plant_id] },
         chain := Blockchain.add_block t (plantedPayload plant_id strain pod_id)
           st.chain },
       Except.ok plant)

end App

section ChainTheorems

open Blockchain

theorem verifyFrom_append (l : List Block) (prev b : Block) :
    verifyFrom prev (l ++ [b]) = true ↔
      (verifyFrom prev l = true ∧ blockHashOk b = true ∧
        b.previous_hash = (l.getLastD prev).hash) := by
  induction l generalizing prev with
  | nil =>
    simp [verifyFrom, blockHashOk]
  | cons x xs ih =>
    simp only [List.cons_append, verifyFrom, Bool.and_assoc, Bool.and_eq_true,
      beq_iff_eq, List.getLastD_cons, List.append_eq]
    rw [ih]
    tauto

theorem verify_chain_add_block (c : List Block) (t : Nat) (d : String)
    (hne : c ≠ []) (hv : verify_chain c = true) :
    verify_chain (add_block t d c) = true := by
  obtain ⟨b0, rest, rfl⟩ : ∃ b0 rest, c = b0 :: rest := by
    cases c with
    | nil => exact absurd rfl hne
    | cons x xs => exact ⟨x, xs, rfl⟩
  simp only [add_block, verify_chain, List.cons_append] at *
  rw [verifyFrom_append]
  refine ⟨hv, ?_, ?_⟩
  · simp [blockHashOk, mkBlock]
  · simp only [mkBlock, get_latest_block, List.getLastD_cons]

theorem buildChain_ok (t0 : Nat) (appends : List (Nat × String)) :
    buildChain t0 appends ≠ [] ∧ verify_chain (buildChain t0 appends) = true := by
  suffices h : ∀ (l : List (Nat × String)) (c : List Block), c ≠ [] →
      verify_chain c = true →
      l.foldl (fun c p => add_block p.1 p.2 c) c ≠ [] ∧
        verify_chain (l.foldl (fun c p => add_block p.1 p.2 c) c) = true by
    exact h appends (freshChain t0) (by simp [freshChain]) rfl
  intro l
  induction l with
  | nil => intro c h1 h2; exact ⟨h1, h2⟩
  | cons p ps ih =>
    intro c h1 h2
    refine ih (add_block p.1 p.2 c) (by simp [add_block]) ?_
    exact verify_chain_add_block c p.1 p.2 h1 h2

theorem verifyFrom_all_hashOk (prev : Block) (l : List Block)
    (h : verifyFrom prev l = true) : ∀ b ∈ l, blockHashOk b = true := by
  induction l generalizing prev with
  | nil => intro b hb; simp at hb
  | cons x xs ih =>
    simp only [verifyFrom, Bool.and_assoc, Bool.and_eq_true] at h
    intro b hb
    rcases List.mem_cons.mp hb with rfl | hb
    · exact h.1
    · exact ih x h.2.2 b hb

theorem verify_chain_mutate (c : List Block) (i : Nat) (d : String) (b : Block)
    (hb : c.get? i = some b) (hi : 1 ≤ i)
    (hdiff : calculate_hash b.block_number b.timestamp d b.previous_hash ≠ b.hash) :
    verify_chain (mutateData c i d) = false := by
  obtain ⟨b0, rest, rfl⟩ : ∃ b0 rest, c = b0 :: rest := by
    cases c with
    | nil => simp at hb
    | cons x xs => exact ⟨x, xs, rfl⟩
  obtain ⟨j, rfl⟩ : ∃ j, i = j + 1 := ⟨i - 1, (Nat.succ_pred_eq_of_pos hi).symm⟩
  have hblen : j < rest.length := by
    obtain ⟨hlt, _⟩ := List.get?_eq_some.mp hb
    simpa using hlt
  unfold mutateData
  rw [hb]
  show verify_chain ((b0 :: rest).set (j + 1) (setData b d)) = false
  have hset : (b0 :: rest).set (j + 1) (setData b d) = b0 :: rest.set j (setData b d) := rfl
  rw [hset]
  simp only [verify_chain]
  cases hv : verifyFrom b0 (rest.set j (setData b d)) with
  | false => rfl
  | true =>
    exfalso
    have hlen2 : j < (rest.set j (setData b d)).length := by simpa using hblen
    have hget : (rest.set j (setData b d)).get ⟨j, hlen2⟩ = setData b d := by
      simp [List.getElem_set_self]
    have hmem : setData b d ∈ rest.set j (setData b d) := by
      have hm := List.get_mem (rest.set j (setData b d)) j hlen2
      rwa [hget] at hm
    have hok := verifyFrom_all_hashOk b0 _ hv (setData b d) hmem
    simp only [blockHashOk, setData, beq_iff_eq] at hok
    exact hdiff hok.symm

set_option maxRecDepth 4000 in
/-- C1 is false as stated: build a chain with one append, then overwrite the
payload of the block at index 0 (the genesis block, a stored block of the
chain).  Its recomputed hash then differs from its stored hash
(`blockHashOk` is false), yet `verify_chain` still returns true: the
verification loop starts at index 1, never recomputes the genesis block's
own hash, and compares link hashes against stored (not recomputed) values. -/
theorem claim1_counterexample :
    blockHashOk ((mutateData (buildChain 0 [(1, "x")]) 0 "tampered").headD
        dummyBlock) = false ∧
    verify_chain (mutateData (buildChain 0 [(1, "x")]) 0 "tampered") = true :=
  ⟨by decide, by decide⟩

/-- C1 (amended): for every chain built by a sequence of appends from a fresh
chain, `verify_chain` returns true; and mutating the payload of any stored
block at index at least 1 so that its recomputed hash differs from its
stored hash makes `verify_chain` return false.  (Amendment forced by the
counterexample: the mutated block's index must be at least 1 — a mutation
of the genesis payload at index 0 is not detected.) -/
theorem claim1_tamper_evidence_amended :
    (∀ (t0 : Nat) (appends : List (Nat × String)),
        verify_chain (buildChain t0 appends) = true) ∧
    (∀ (c : List Block) (i : Nat) (d : String) (b : Block),
        c.get? i = some b → 1 ≤ i →
        calculate_hash b.block_number b.timestamp d b.previous_hash ≠ b.hash →
        verify_chain (mutateData c i d) = false) :=
  ⟨fun t0 appends => (buildChain_ok t0 appends).2,
   fun c i d b hb hi hdiff => verify_chain_mutate c i d b hb hi hdiff⟩

theorem claim1_tamper_evidence_amended_witness :
    verify_chain (buildChain 0 [(1, "x")]) = true ∧
    verify_chain (mutateData (buildChain 0 [(1, "x")]) 1 "tampered") = false :=
  ⟨claim1_tamper_evidence_amended.1 0 [(1, "x")],
   claim1_tamper_evidence_amended.2 (buildChain 0 [(1, "x")]) 1 "tampered"
     (mkBlock 1 1 "x" (create_genesis_block 0).hash) rfl (by decide) (by decide)⟩

/-- C2: on every (nonempty, i.e. reachable) chain state, `add_block`
preserves the existing blocks as a prefix, adds exactly one block at the
end, and the new last block has `previous_hash` equal to the current last
block's hash and `block_number` equal to the current chain length. -/
theorem claim2_append_shape (c : List Block) (t : Nat) (d : String)
    (hne : c ≠ []) :
    (add_block t d c).take c.length = c ∧
    (add_block t d c).length = c.length + 1 ∧
    (add_block t d c).getLastD dummyBlock =
      mkBlock c.length t d (get_latest_block c).hash ∧
    (get_latest_block (add_block t d c)).previous_hash =
      (get_latest_block c).hash ∧
    (get_latest_block (add_block t d c)).block_number = c.length := by
  refine ⟨?_, ?_, ?_, ?_, ?_⟩
  · simp [add_block, List.take_left]
  · simp [add_block]
  · simp [add_block, List.getLastD_concat]
  · simp [add_block, get_latest_block, List.getLastD_concat, mkBlock]
  · simp [add_block, get_latest_block, List.getLastD_concat, mkBlock]

theorem claim2_append_shape_witness :
    (add_block 5 "payload" (freshChain 0)).take 1 = freshChain 0 ∧
    (add_block 5 "payload" (freshChain 0)).length = 2 := by
  have h := claim2_append_shape (freshChain 0) 5 "payload" (by simp [freshChain])
  exact ⟨h.1, h.2.1⟩

/-- C3: a freshly constructed chain has length exactly 1, its single block
has `previous_hash` equal to the genesis marker "0" and block number 0, and
`verify_chain` on the fresh chain returns true. -/
theorem claim3_genesis_invariant (t0 : Nat) :
    (freshChain t0).length = 1 ∧
    ((freshChain t0).headD dummyBlock).previous_hash = "0" ∧
    ((freshChain t0).headD dummyBlock).block_number = 0 ∧
    verify_chain (freshChain t0) = true :=
  ⟨rfl, rfl, rfl, rfl⟩

end ChainTheorems

section GrowthTheorems

open Growth

theorem stage_growth_rates_pos (s : GrowthStage) : 0 < stage_growth_rates s := by
  cases s <;> norm_num [stage_growth_rates]

theorem track_growth_rate_eq (history : List GrowthMetrics) (plant : Plant)
    (now height : ℚ) (lc : Option Nat) :
    (track_growth history plant now height lc).growth_rate =
      computeGrowthRate history now height := rfl

theorem track_growth_health_eq (history : List GrowthMetrics) (plant : Plant)
    (now height : ℚ) (lc : Option Nat) :
    (track_growth history plant now height lc).health_score =
      adjustHealth plant.growth_stage plant.health_score
        (computeGrowthRate history now height) := rfl

/-- C4: the growth rate of a recorded measurement is the height difference
divided by the elapsed days when a prior sample exists and the elapsed time
is positive; it is left undefined when the elapsed time is nonpositive or no
prior sample exists (no division is performed in those cases). -/
theorem claim4_growth_rate (history : List GrowthMetrics) (plant : Plant)
    (now height : ℚ) (lc : Option Nat) :
    (history = [] → (track_growth history plant now height lc).growth_rate = none) ∧
    (∀ last, history.getLast? = some last →
      (now - last.timestamp ≤ 0 →
        (track_growth history plant now height lc).growth_rate = none) ∧
      (0 < now - last.timestamp →
        (track_growth history plant now height lc).growth_rate =
          some ((height - last.height) / (now - last.timestamp)))) := by
  constructor
  · intro h
    subst h
    rfl
  · intro last hlast
    rw [track_growth_rate_eq]
    unfold computeGrowthRate
    rw [hlast]
    dsimp only
    constructor
    · intro hle
      rw [if_neg (not_lt.mpr hle)]
    · intro hpos
      rw [if_pos hpos]

theorem claim4_growth_rate_witness :
    (Growth.track_growth [] (plantP 100 GrowthStage.seedling)
      1 5 none).growth_rate = none ∧
    (Growth.track_growth [sampleWithRate 0] (plantP 100 GrowthStage.seedling)
      0 5 none).growth_rate = none ∧
    (Growth.track_growth [sampleWithRate 0] (plantP 100 GrowthStage.seedling)
      1 15 none).growth_rate = some 5 := by
  refine ⟨?_, ?_, ?_⟩
  · exact (claim4_growth_rate [] _ 1 5 none).1 rfl
  · exact (((claim4_growth_rate [sampleWithRate 0] _ 0 5 none).2
      (sampleWithRate 0) rfl).1 (by norm_num [sampleWithRate]))
  · have h := (((claim4_growth_rate [sampleWithRate 0]
      (plantP 100 GrowthStage.seedling)
      1 15 none).2 (sampleWithRate 0) rfl).2 (by norm_num [sampleWithRate]))
    rw [h]
    norm_num [sampleWithRate]

theorem adjustHealth_bounds (stage : GrowthStage) (score : ℚ) (r : Option ℚ)
    (h1 : 50 ≤ score) (h2 : score ≤ 100) :
    50 ≤ adjustHealth stage score r ∧ adjustHealth stage score r ≤ 100 := by
  cases r with
  | none => exact ⟨h1, h2⟩
  | some v =>
    simp only [adjustHealth]
    split_ifs with hs hf
    · exact ⟨le_max_left _ _, max_le (by norm_num) (by linarith)⟩
    · exact ⟨le_min (by norm_num) (by linarith), min_le_left _ _⟩
    · exact ⟨h1, h2⟩

theorem runMeasurements_bounds (id : String) (stage : GrowthStage)
    (obs : List (ℚ × ℚ)) : ∀ (st : TrackState),
    50 ≤ st.score → st.score ≤ 100 →
    50 ≤ (runMeasurements id stage st obs).score ∧
      (runMeasurements id stage st obs).score ≤ 100 := by
  induction obs with
  | nil => intro st h1 h2; exact ⟨h1, h2⟩
  | cons o os ih =>
    intro st h1 h2
    have hstep : (measureStep id stage st o).score =
        adjustHealth stage st.score (computeGrowthRate st.history o.1 o.2) := rfl
    have hb := adjustHealth_bounds stage st.score
      (computeGrowthRate st.history o.1 o.2) h1 h2
    have hrun : runMeasurements id stage st (o :: os) =
        runMeasurements id stage (measureStep id stage st o) os := rfl
    rw [hrun]
    exact ih _ (by rw [hstep]; exact hb.1) (by rw [hstep]; exact hb.2)

/-- C5: when the growth rate is defined, a rate strictly below half the
stage's expected rate turns the health score into `max 50 (score - 10)`, a
rate strictly above one-and-a-half times the expected rate turns it into
`min 100 (score + 5)`, and otherwise it is unchanged; consequently repeated
measurements keep a starting score in [50, 100] inside [50, 100]. -/
theorem claim5_health_bounds :
    (∀ (history : List GrowthMetrics) (plant : Plant) (now height : ℚ)
        (lc : Option Nat) (r : ℚ),
      computeGrowthRate history now height = some r →
      ((r < stage_growth_rates plant.growth_stage * (1/2) →
          (track_growth history plant now height lc).health_score =
            max 50 (plant.health_score - 10)) ∧
       (stage_growth_rates plant.growth_stage * (3/2) < r →
          (track_growth history plant now height lc).health_score =
            min 100 (plant.health_score + 5)) ∧
       (¬ r < stage_growth_rates plant.growth_stage * (1/2) →
        ¬ stage_growth_rates plant.growth_stage * (3/2) < r →
          (track_growth history plant now height lc).health_score =
            plant.health_score))) ∧
    (∀ (id : String) (stage : GrowthStage) (st : TrackState)
        (obs : List (ℚ × ℚ)),
      50 ≤ st.score → st.score ≤ 100 →
      50 ≤ (runMeasurements id stage st obs).score ∧
        (runMeasurements id stage st obs).score ≤ 100) := by
  constructor
  · intro history plant now height lc r hr
    rw [track_growth_health_eq, hr]
    simp only [adjustHealth]
    have hpos := stage_growth_rates_pos plant.growth_stage
    refine ⟨?_, ?_, ?_⟩
    · intro hs
      rw [if_pos hs]
    · intro hf
      rw [if_neg (by linarith), if_pos hf]
    · intro hns hnf
      rw [if_neg hns, if_neg hnf]
  · intro id stage st obs h1 h2
    exact runMeasurements_bounds id stage obs st h1 h2

theorem claim5_health_bounds_witness :
    (Growth.track_growth [sampleWithRate 0] (plantP 80 GrowthStage.vegetative)
      1 10 none).health_score = max 50 (80 - 10) ∧
    50 ≤ (runMeasurements "p1" GrowthStage.vegetative
        (TrackState.mk 80 []) [(1, 10), (2, 10)]).score ∧
      (runMeasurements "p1" GrowthStage.vegetative
        (TrackState.mk 80 []) [(1, 10), (2, 10)]).score ≤ 100 := by
  refine ⟨?_, ?_⟩
  · exact ((claim5_health_bounds.1 [sampleWithRate 0]
      (plantP 80 GrowthStage.vegetative)
      1 10 none 0 (by norm_num [computeGrowthRate, sampleWithRate])).1
      (by norm_num [stage_growth_rates, plantP]))
  · exact claim5_health_bounds.2 "p1" GrowthStage.vegetative
      (TrackState.mk 80 []) [(1, 10), (2, 10)] (by norm_num) (by norm_num)

/-- C10: a measurement whose defined growth rate is strictly below half the
expected rate, applied to a plant whose current health score is below 50,
stores the health score exactly 50 — the `max 50 (score - 10)` penalty
raises a sub-50 score instead of decreasing it. -/
theorem claim10_sub50_penalty (history : List GrowthMetrics) (plant : Plant)
    (now height : ℚ) (lc : Option Nat) (r : ℚ)
    (hscore : plant.health_score < 50)
    (hr : computeGrowthRate history now height = some r)
    (hslow : r < stage_growth_rates plant.growth_stage * (1/2)) :
    (track_growth history plant now height lc).health_score = 50 ∧
    plant.health_score < (track_growth history plant now height lc).health_score := by
  have h50 : (track_growth history plant now height lc).health_score = 50 := by
    rw [track_growth_health_eq, hr]
    simp only [adjustHealth]
    rw [if_pos hslow]
    exact max_eq_left (by linarith)
  exact ⟨h50, by rw [h50]; exact hscore⟩

theorem truthyRates_eq_filter (l : List GrowthMetrics) :
    truthyRates l = (definedRates l).filter (fun r => decide (r ≠ 0)) := by
  induction l with
  | nil => rfl
  | cons m ms ih =>
    simp only [truthyRates, definedRates, List.filterMap_cons] at ih ⊢
    cases hm : m.growth_rate with
    | none => simpa using ih
    | some r =>
      by_cases hr : r = 0
      · subst hr
        simpa using ih
      · simp [hr, List.filter_cons, ih]

/-- C6 (amended): with at least 4 prior samples, the recent mean is taken
over the last 5 prior samples ignoring the samples whose growth rate is
undefined OR ZERO (the source filters by Python truthiness, and a 0.0 rate
is falsy); the remaining-days estimate is rescaled by
`expectedRate / meanRecentRate` exactly when that mean exists and is
positive, and otherwise (no usable mean, nonpositive mean, or fewer than 4
prior samples) the unscaled sum of the expected stage durations up to
harvest is used. -/
theorem claim6_harvest_scaling_amended (stage : GrowthStage)
    (history : List GrowthMetrics) (now : ℚ) :
    truthyRates (lastFive history) =
      (definedRates (lastFive history)).filter (fun r => decide (r ≠ 0)) ∧
    (3 < history.length →
      (∀ avg, meanList (truthyRates (lastFive history)) = some avg →
        (0 < avg → predict_harvest_date stage history now =
          now + ((intTrunc ((remainingBase stage : ℚ) *
            (stage_growth_rates stage / avg))) : ℚ)) ∧
        (¬ 0 < avg → predict_harvest_date stage history now =
          now + (remainingBase stage : ℚ))) ∧
      (meanList (truthyRates (lastFive history)) = none →
        predict_harvest_date stage history now =
          now + (remainingBase stage : ℚ))) ∧
    (¬ 3 < history.length →
      predict_harvest_date stage history now =
        now + (remainingBase stage : ℚ)) := by
  refine ⟨truthyRates_eq_filter _, ?_, ?_⟩
  · intro h4
    constructor
    · intro avg hm
      constructor
      · intro hpos
        unfold predict_harvest_date
        rw [if_pos h4]
        split
        · rename_i x heq
          rw [hm] at heq
          injection heq with heq
          subst heq
          rw [if_pos hpos]
        · rename_i heq
          rw [hm] at heq
          exact absurd heq (by simp)
      · intro hneg
        unfold predict_harvest_date
        rw [if_pos h4]
        split
        · rename_i x heq
          rw [hm] at heq
          injection heq with heq
          subst heq
          rw [if_neg hneg]
          norm_num
        · rename_i heq
          rw [hm] at heq
          exact absurd heq (by simp)
    · intro hm
      unfold predict_harvest_date
      rw [if_pos h4]
      split
      · rename_i x heq
        rw [hm] at heq
        exact absurd heq (by simp)
      · norm_num
  · intro h4
    unfold predict_harvest_date
    rw [if_neg h4]
    norm_num

theorem claim6_harvest_scaling_amended_witness :
    truthyRates (lastFive c6hist) =
      (definedRates (lastFive c6hist)).filter (fun r => decide (r ≠ 0)) ∧
    Growth.predict_harvest_date GrowthStage.vegetative c6hist 0 =
      0 + ((intTrunc ((remainingBase GrowthStage.vegetative : ℚ) *
        (stage_growth_rates GrowthStage.vegetative / 2))) : ℚ) :=
  ⟨(claim6_harvest_scaling_amended GrowthStage.vegetative c6hist 0).1,
   (((claim6_harvest_scaling_amended GrowthStage.vegetative c6hist 0).2.1
      (by decide)).1 2 (by
        have hA : truthyRates (lastFive c6hist) = [2, 2, 2] := by decide
        rw [hA]
        unfold meanList
        rw [if_neg (by decide)]
        norm_num [List.foldl_cons, List.foldl_nil])).1 (by norm_num)⟩

/-- C6 is false as stated: in the concrete four-sample history `c6hist`
every growth rate is defined (they are 0, 2, 2, 2), so a mean "ignoring
exactly the samples whose growth rate is undefined" averages all four
(giving 3/2 and a prediction of day 120); the source's truthiness filter
also drops the zero rate (mean 2, prediction day 90).  The source disagrees
with the claim's description on this input. -/
theorem claim6_counterexample :
    definedRates c6hist = [0, 2, 2, 2] ∧
    Growth.predict_harvest_date GrowthStage.vegetative c6hist 0 = 90 ∧
    Growth.predict_harvest_date_claimC6 GrowthStage.vegetative c6hist 0 = 120 ∧
    Growth.predict_harvest_date GrowthStage.vegetative c6hist 0 ≠
      Growth.predict_harvest_date_claimC6 GrowthStage.vegetative c6hist 0 := by
  have hA : truthyRates (lastFive c6hist) = [2, 2, 2] := by decide
  have hB : definedRates (lastFive c6hist) = [0, 2, 2, 2] := by decide
  have hrem : remainingBase GrowthStage.vegetative = 90 := by decide
  have h4 : 3 < c6hist.length := by decide
  have hmean : meanList (truthyRates (lastFive c6hist)) = some 2 := by
    rw [hA]
    unfold meanList
    rw [if_neg (by decide)]
    norm_num [List.foldl_cons, List.foldl_nil]
  have hmean2 : meanList (definedRates (lastFive c6hist)) = some (3/2) := by
    rw [hB]
    unfold meanList
    rw [if_neg (by decide)]
    norm_num [List.foldl_cons, List.foldl_nil]
  have h1 : predict_harvest_date GrowthStage.vegetative c6hist 0 = 90 := by
    unfold predict_harvest_date
    rw [if_pos h4, hmean]
    norm_num [hrem, intTrunc, stage_growth_rates]
  have h2 : predict_harvest_date_claimC6 GrowthStage.vegetative c6hist 0 = 120 := by
    unfold predict_harvest_date_claimC6
    rw [if_pos h4, hmean2]
    norm_num [hrem, intTrunc, stage_growth_rates]
  refine ⟨by decide, h1, h2, ?_⟩
  rw [h1, h2]
  norm_num

theorem claim10_sub50_penalty_witness :
    (Growth.track_growth [sampleWithRate 0] (plantP 40 GrowthStage.vegetative)
      1 10 none).health_score = 50 := by
  exact (claim10_sub50_penalty [sampleWithRate 0]
    (plantP 40 GrowthStage.vegetative)
    1 10 none 0 (by norm_num [plantP])
    (by norm_num [computeGrowthRate, sampleWithRate])
    (by norm_num [stage_growth_rates, plantP])).1

end GrowthTheorems

section EnvTheorems

open EnvMonitor

/-- C8: a temperature alert is produced exactly when the temperature is below
0.9 times the range minimum or above 1.1 times the range maximum; humidity
follows the same 10% band rule; a pH alert is produced exactly when the pH
is strictly outside its exact range (no tolerance band); and the alerts are
entirely insensitive to the CO2 and light values. -/
theorem claim8_alert_asymmetry (c : EnvironmentalCondition) :
    (Alert.temperatureLow ∈ generate_alerts c ↔
      c.temperature < temperatureRange.1 * (9/10)) ∧
    (Alert.temperatureHigh ∈ generate_alerts c ↔
      c.temperature > temperatureRange.2 * (11/10)) ∧
    (Alert.humidityLow ∈ generate_alerts c ↔
      c.humidity < humidityRange.1 * (9/10)) ∧
    (Alert.humidityHigh ∈ generate_alerts c ↔
      c.humidity > humidityRange.2 * (11/10)) ∧
    (Alert.phOutOfRange ∈ generate_alerts c ↔
      (c.ph_level < phRange.1 ∨ c.ph_level > phRange.2)) ∧
    (∀ x y, generate_alerts { c with co2_level := x, light_intensity := y } =
      generate_alerts c) := by
  obtain ⟨ts, temp, hum, co2v, light, ph⟩ := c
  refine ⟨?_, ?_, ?_, ?_, ?_, fun x y => rfl⟩ <;>
    (simp only [generate_alerts]
     split_ifs <;>
       simp_all [temperatureRange, humidityRange, phRange] <;> try linarith)

/-- C7: windowed statistics report the "no data" error exactly when the pod
has an empty history; when samples exist but none fall inside the window,
the result is a successful statistics record computed over the fallback set
of the most recent at most 10 samples (all samples when there are at most
10). -/
theorem claim7_env_fallback (history : List EnvironmentalCondition)
    (now hours : ℚ) :
    (get_environment_analytics history now hours =
        Except.error "No environmental data available" ↔ history = []) ∧
    (10 < history.length →
      fallbackSet history = history.drop (history.length - 10)) ∧
    (history.length ≤ 10 → fallbackSet history = history) ∧
    (history ≠ [] →
      history.filter (fun c => now - hours ≤ c.timestamp) = [] →
      ∃ a, get_environment_analytics history now hours = Except.ok a ∧
        a.measurements = (fallbackSet history).length ∧
        a.temperature.average =
          listMean ((fallbackSet history).map (fun c => c.temperature)) ∧
        a.temperature.min =
          listMin ((fallbackSet history).map (fun c => c.temperature)) ∧
        a.temperature.max =
          listMax ((fallbackSet history).map (fun c => c.temperature)) ∧
        a.temperature.variance =
          popVariance ((fallbackSet history).map (fun c => c.temperature)) ∧
        a.humidity.average =
          listMean ((fallbackSet history).map (fun c => c.humidity)) ∧
        a.humidity.min =
          listMin ((fallbackSet history).map (fun c => c.humidity)) ∧
        a.humidity.max =
          listMax ((fallbackSet history).map (fun c => c.humidity)) ∧
        a.humidity.variance =
          popVariance ((fallbackSet history).map (fun c => c.humidity)) ∧
        a.co2.average =
          listMean ((fallbackSet history).map (fun c => c.co2_level)) ∧
        a.co2.min =
          listMin ((fallbackSet history).map (fun c => c.co2_level)) ∧
        a.co2.max =
          listMax ((fallbackSet history).map (fun c => c.co2_level))) := by
  refine ⟨?_, ?_, ?_, ?_⟩
  · constructor
    · intro h
      by_contra hne
      unfold get_environment_analytics at h
      rw [if_neg hne] at h
      simp at h
    · intro h
      subst h
      rfl
  · intro hlen
    unfold fallbackSet
    rw [if_pos hlen]
  · intro hlen
    unfold fallbackSet
    rw [if_neg (not_lt.mpr hlen)]
  · intro hne hfilt
    unfold get_environment_analytics
    rw [if_neg hne]
    dsimp only
    rw [hfilt]
    rw [if_pos rfl]
    exact ⟨_, rfl, rfl, rfl, rfl, rfl, rfl, rfl, rfl, rfl, rfl, rfl, rfl, rfl⟩

theorem claim7_env_fallback_witness :
    EnvMonitor.get_environment_analytics [] 100 24 =
      Except.error "No environmental data available" ∧
    (∃ a, EnvMonitor.get_environment_analytics [envSample 0] 100 24 =
        Except.ok a ∧
      a.measurements = (fallbackSet [envSample 0]).length ∧
      a.temperature.average =
        listMean ((fallbackSet [envSample 0]).map (fun c => c.temperature)) ∧
      a.temperature.min =
        listMin ((fallbackSet [envSample 0]).map (fun c => c.temperature)) ∧
      a.temperature.max =
        listMax ((fallbackSet [envSample 0]).map (fun c => c.temperature)) ∧
      a.temperature.variance =
        popVariance ((fallbackSet [envSample 0]).map (fun c => c.temperature)) ∧
      a.humidity.average =
        listMean ((fallbackSet [envSample 0]).map (fun c => c.humidity)) ∧
      a.humidity.min =
        listMin ((fallbackSet [envSample 0]).map (fun c => c.humidity)) ∧
      a.humidity.max =
        listMax ((fallbackSet [envSample 0]).map (fun c => c.humidity)) ∧
      a.humidity.variance =
        popVariance ((fallbackSet [envSample 0]).map (fun c => c.humidity)) ∧
      a.co2.average =
        listMean ((fallbackSet [envSample 0]).map (fun c => c.co2_level)) ∧
      a.co2.min =
        listMin ((fallbackSet [envSample 0]).map (fun c => c.co2_level)) ∧
      a.co2.max =
        listMax ((fallbackSet [envSample 0]).map (fun c => c.co2_level))) :=
  ⟨(claim7_env_fallback [] 100 24).1.mpr rfl,
   (claim7_env_fallback [envSample 0] 100 24).2.2.2 (by simp)
     (by norm_num [envSample, List.filter_cons, List.filter_nil])⟩

end EnvTheorems

section AppTheorems

open App

set_option maxRecDepth 10000 in
/-- C9: adding a plant to a pod already at full capacity yields the capacity
error and leaves the whole state, in particular the ledger chain, unchanged;
a successful add appends exactly one block to the chain; and in the concrete
capacity-1 scenario the first add gives chain length 2 with successful
verification while the second add is rejected with the chain length still 2. -/
theorem claim9_capacity :
    (∀ (st : AppState) (t : Nat) (plant_id strain pod_id : String)
        (pod : GrowPod),
      lookupKey st.pods pod_id = some pod →
      pod.capacity ≤ pod.current_plants.length →
      add_plant st t plant_id strain pod_id =
        (st, Except.error ("Pod " ++ pod_id ++ " is at full capacity"))) ∧
    (∀ (st : AppState) (t : Nat) (plant_id strain pod_id : String)
        (pod : GrowPod),
      lookupKey st.pods pod_id = some pod →
      pod.current_plants.length < pod.capacity →
      (add_plant st t plant_id strain pod_id).1.chain =
        Blockchain.add_block t (plantedPayload plant_id strain pod_id)
          st.chain ∧
      (add_plant st t plant_id strain pod_id).1.chain.length =
        st.chain.length + 1) ∧
    ((add_plant (create_pod (initApp 0) "pod1" "Pod One" 1)
        1 "plant1" "OG Kush" "pod1").1.chain.length = 2 ∧
     Blockchain.verify_chain (add_plant (create_pod (initApp 0) "pod1" "Pod One" 1)
        1 "plant1" "OG Kush" "pod1").1.chain = true ∧
     (add_plant (add_plant (create_pod (initApp 0) "pod1" "Pod One" 1)
        1 "plant1" "OG Kush" "pod1").1 2 "plant2" "OG Kush" "pod1").1.chain.length
       = 2 ∧
     (add_plant (add_plant (create_pod (initApp 0) "pod1" "Pod One" 1)
        1 "plant1" "OG Kush" "pod1").1 2 "plant2" "OG Kush" "pod1").2 =
       Except.error "Pod pod1 is at full capacity") := by
  refine ⟨?_, ?_, ?_, ?_, ?_, ?_⟩
  · intro st t plant_id strain pod_id pod h1 h2
    unfold add_plant
    split
    · rename_i heq
      rw [h1] at heq
      simp at heq
    · rename_i p heq
      rw [h1] at heq
      injection heq with heq
      subst heq
      rw [if_pos h2]
  · intro st t plant_id strain pod_id pod h1 h2
    unfold add_plant
    split
    · rename_i heq
      rw [h1] at heq
      simp at heq
    · rename_i p heq
      rw [h1] at heq
      injection heq with heq
      subst heq
      rw [if_neg (not_le.mpr h2)]
      exact ⟨rfl, by simp [Blockchain.add_block]⟩
  · rfl
  · rfl
  · rfl
  · rfl

set_option maxRecDepth 10000 in
theorem claim9_capacity_witness :
    add_plant (add_plant (create_pod (initApp 0) "pod1" "Pod One" 1)
        1 "plant1" "OG Kush" "pod1").1 2 "plant2" "OG Kush" "pod1" =
      ((add_plant (create_pod (initApp 0) "pod1" "Pod One" 1)
        1 "plant1" "OG Kush" "pod1").1,
       Except.error "Pod pod1 is at full capacity") := by
  exact claim9_capacity.1
    (add_plant (create_pod (initApp 0) "pod1" "Pod One" 1)
      1 "plant1" "OG Kush" "pod1").1 2 "plant2" "OG Kush" "pod1"
    (GrowPod.mk "pod1" "Pod One" 1 ["plant1"]) rfl (by decide)

end AppTheorems
